import Mathlib

/-!
Shallow embedding of the MetaTrader 5 trading performance dashboard
(src/app.py) together with theorems settling the frozen claims about it.

Monetary quantities (profit, price, volume) are modelled as rationals,
timestamps as natural numbers (seconds since the epoch for deals,
microseconds since the epoch for the widened analysis range).
-/

namespace MT5Dashboard

/-- MetaTrader 5 deal-type code for a buy execution (mt5.DEAL_TYPE_BUY). -/
def DEAL_TYPE_BUY : Nat := 0

/-- MetaTrader 5 deal-type code for a sell execution (mt5.DEAL_TYPE_SELL). -/
def DEAL_TYPE_SELL : Nat := 1

/-- MetaTrader 5 deal-type code for a balance operation (mt5.DEAL_TYPE_BALANCE). -/
def DEAL_TYPE_BALANCE : Nat := 2

/-- MetaTrader 5 entry-role code for a position-opening deal (mt5.DEAL_ENTRY_IN). -/
def DEAL_ENTRY_IN : Nat := 0

/-- MetaTrader 5 entry-role code for a position-closing deal (mt5.DEAL_ENTRY_OUT). -/
def DEAL_ENTRY_OUT : Nat := 1

/-- One raw ledger entry (a row of the deals DataFrame fetched in
get_trade_history, src/app.py lines 27-38). -/
structure Deal where
  time : Nat
  ticket : Nat
  symbol : String
  type : Nat
  entry : Nat
  volume : ℚ
  price : ℚ
  profit : ℚ
  comment : String
deriving DecidableEq

/-- Trade subset of the raw entries: rows whose type is Buy or Sell
(src/app.py line 77, `raw_data[raw_data[type].isin([BUY, SELL])]`). -/
def trade_data (raw : List Deal) : List Deal :=
  raw.filter (fun d => d.type == DEAL_TYPE_BUY || d.type == DEAL_TYPE_SELL)

/-- Balance subset of the raw entries: rows whose type is Balance
(src/app.py line 80). -/
def balance_data (raw : List Deal) : List Deal :=
  raw.filter (fun d => d.type == DEAL_TYPE_BALANCE)

/-- Sum of profit over all trade entries (src/app.py line 86). -/
def net_profit (td : List Deal) : ℚ :=
  (td.map (fun d => d.profit)).sum

/-- Closing deals: trade entries whose entry role is Out (src/app.py line 89). -/
def closing_deals (td : List Deal) : List Deal :=
  td.filter (fun d => d.entry == DEAL_ENTRY_OUT)

/-- Number of closing deals (src/app.py line 90). -/
def total_trades (td : List Deal) : Nat :=
  (closing_deals td).length

/-- Winning closing deals: closing deals with strictly positive profit
(src/app.py line 92). -/
def wins (td : List Deal) : List Deal :=
  (closing_deals td).filter (fun d => decide (0 < d.profit))

/-- Losing closing deals: closing deals with strictly negative profit
(src/app.py line 93). -/
def losses (td : List Deal) : List Deal :=
  (closing_deals td).filter (fun d => decide (d.profit < 0))

/-- Win rate in percent, 0 when there are no closing deals (src/app.py line 98). -/
def win_rate (td : List Deal) : ℚ :=
  if 0 < total_trades td then
    ((wins td).length : ℚ) / (total_trades td : ℚ) * 100
  else 0

/-- Summed profit of the winning closing deals (src/app.py line 100). -/
def total_profit (td : List Deal) : ℚ :=
  ((wins td).map (fun d => d.profit)).sum

/-- Absolute value of the summed profit of the losing closing deals
(src/app.py line 101). -/
def total_loss (td : List Deal) : ℚ :=
  |((losses td).map (fun d => d.profit)).sum|

/-- Value of the profit-factor metric: either a finite rational or the
float positive infinity produced by the Python expression float(inf). -/
inductive PFValue
  | val (q : ℚ)
  | posInf
deriving DecidableEq

/-- Profit factor (src/app.py line 103): total_profit / total_loss when the
total loss is strictly positive, positive infinity otherwise. -/
def profit_factor (td : List Deal) : PFValue :=
  if 0 < total_loss td then PFValue.val (total_profit td / total_loss td)
  else PFValue.posInf

/-- Average winning profit: mean of wins, 0 when there are no wins
(src/app.py line 105). -/
def avg_win (td : List Deal) : ℚ :=
  if 0 < (wins td).length then total_profit td / ((wins td).length : ℚ)
  else 0

/-- Average loss magnitude: absolute value of the mean of losses, 0 when
there are no losses (src/app.py line 106). -/
def avg_loss (td : List Deal) : ℚ :=
  if 0 < (losses td).length then
    |(((losses td).map (fun d => d.profit)).sum) / ((losses td).length : ℚ)|
  else 0

/-- Running sum with an explicit accumulator; cumsum 0 l is the pandas
cumulative sum of l (src/app.py line 121). -/
def cumsum (acc : ℚ) : List ℚ → List ℚ
  | [] => []
  | x :: xs => (acc + x) :: cumsum (acc + x) xs

/-- Cumulative-profit series over the trade entries, in their list order
(src/app.py line 121, `trade_data[profit].cumsum()`). -/
def cumulative_profit (td : List Deal) : List ℚ :=
  cumsum 0 (td.map (fun d => d.profit))

/-- Insertion of one element into a list, before the first element that the
comparator does not place below; used to model a sort. -/
def insertLe {α : Type} (le : α → α → Bool) (x : α) : List α → List α
  | [] => [x]
  | y :: ys => if le x y then x :: y :: ys else y :: insertLe le x ys

/-- Insertion sort by a boolean comparator. -/
def sortLe {α : Type} (le : α → α → Bool) : List α → List α
  | [] => []
  | x :: xs => insertLe le x (sortLe le xs)

/-- Per-symbol summed profit over the closing deals, sorted ascending by the
summed profit (src/app.py line 133, groupby plus sort_values). -/
def profit_by_symbol (closing : List Deal) : List (String × ℚ) :=
  let keys := sortLe (fun a b => compare a b != Ordering.gt)
    ((closing.map (fun d => d.symbol)).dedup)
  let pairs := keys.map
    (fun s => (s, ((closing.filter (fun d => d.symbol == s)).map (fun d => d.profit)).sum))
  sortLe (fun a b => decide (a.2 ≤ b.2)) pairs

/-- Number of microseconds in one calendar day. -/
def MICROS_PER_DAY : Nat := 86400000000

/-- Widened start of the analysis range: datetime.combine(start_date,
datetime.min.time()) in microseconds since the epoch, with the date given
as a day ordinal (src/app.py line 57). -/
def startDatetime (d : Nat) : Nat := d * MICROS_PER_DAY

/-- Widened end of the analysis range: datetime.combine(end_date,
datetime.max.time()), that is 23:59:59.999999 of the end date, in
microseconds since the epoch (src/app.py line 58). -/
def endDatetime (d : Nat) : Nat := d * MICROS_PER_DAY + (MICROS_PER_DAY - 1)

/-- Date validation check of src/app.py line 65: the request is rejected
with an error exactly when start_datetime >= end_datetime. -/
def dateValidationRejects (s e : Nat) : Bool :=
  decide (endDatetime e ≤ startDatetime s)

/-- The core pipeline (connect, fetch, classify, analyze) runs exactly when
the validation check does not reject (src/app.py lines 65-71). -/
def corePipelineRuns (s e : Nat) : Bool :=
  !dateValidationRejects s e

/-- State of the MetaTrader 5 terminal connection: whether the terminal is
currently initialized, and how many fetch calls ran so far. -/
structure ConnState where
  connected : Bool
  fetchCalls : Nat
deriving DecidableEq

/-- Outcome of the history fetch: either it returns deals or it raises. -/
inductive FetchOutcome
  | ok (deals : List Deal)
  | raised
deriving DecidableEq

/-- Boolean test of whether the fetch outcome is the raising one. -/
def FetchOutcome.isRaised : FetchOutcome → Bool
  | FetchOutcome.ok _ => false
  | FetchOutcome.raised => true

/-- Result of the connect-fetch-shutdown block as observed by the caller. -/
inductive RunResult
  | initFailed
  | fetchRaised
  | fetched (deals : List Deal)
deriving DecidableEq

/-- Connect, fetch and shutdown sequence of src/app.py lines 68-71.
connect_to_mt5 calls mt5.initialize and halts on failure (lines 18-23);
on success get_trade_history runs once; mt5.shutdown runs on the next
line, with no try or finally around the fetch, so a raising fetch
propagates before the shutdown line is reached. -/
def analysisFetch (initOk : Bool) (outcome : FetchOutcome) (s0 : ConnState) :
    ConnState × RunResult :=
  if initOk then
    let s1 : ConnState := { connected := true, fetchCalls := s0.fetchCalls }
    match outcome with
    | FetchOutcome.raised =>
        ({ connected := s1.connected, fetchCalls := s1.fetchCalls + 1 },
         RunResult.fetchRaised)
    | FetchOutcome.ok deals =>
        let s2 : ConnState := { connected := s1.connected, fetchCalls := s1.fetchCalls + 1 }
        ({ connected := false, fetchCalls := s2.fetchCalls }, RunResult.fetched deals)
  else (s0, RunResult.initFailed)

/-- Informational state chosen by the nested branches of src/app.py
lines 73-84: no activity at all, balance operations only, or a report. -/
inductive Banner
  | noActivity
  | noTrades
  | report
deriving DecidableEq

/-- Branch structure of src/app.py lines 73-84: empty raw data shows the
no-activity warning, an empty trade subset shows the no-trades warning,
otherwise the metrics and charts are rendered. -/
def renderBanner (raw : List Deal) : Banner :=
  if raw.isEmpty then Banner.noActivity
  else if (trade_data raw).isEmpty then Banner.noTrades
  else Banner.report

/-- Display relabeling of the numeric deal type (src/app.py line 148):
Buy deals are labeled Sell and Sell deals are labeled Buy; any other code
is left as its numeral, as pandas replace leaves unmatched values alone. -/
def relabelType (t : Nat) : String :=
  if t == DEAL_TYPE_BUY then "Sell"
  else if t == DEAL_TYPE_SELL then "Buy"
  else toString t

/-- Row of the displayed detailed trade history table (src/app.py
lines 154-161), with the relabeled direction string. -/
structure TableRow where
  time : Nat
  symbol : String
  ticket : Nat
  typeLabel : String
  volume : ℚ
  price : ℚ
  profit : ℚ
  comment : String
deriving DecidableEq

/-- Conversion of a trade entry to its displayed table row. -/
def toRow (d : Deal) : TableRow :=
  { time := d.time, symbol := d.symbol, ticket := d.ticket,
    typeLabel := relabelType d.type, volume := d.volume, price := d.price,
    profit := d.profit, comment := d.comment }

/-- Program state of one analysis run: every variable and rendered series
of the dashboard branch of src/app.py lines 75-161. -/
structure Dashboard where
  rawData : List Deal
  tradeData : List Deal
  balanceData : List Deal
  netProfit : ℚ
  totalTrades : Nat
  winRate : ℚ
  profitFactor : PFValue
  avgWin : ℚ
  avgLoss : ℚ
  equitySeries : List (Nat × ℚ)
  symbolSeries : List (String × ℚ)
  tradeTable : List TableRow

/-- Initial dashboard state holding the fetched raw data and default
values for everything not yet computed. -/
def initDash (raw : List Deal) : Dashboard :=
  { rawData := raw, tradeData := [], balanceData := [], netProfit := 0,
    totalTrades := 0, winRate := 0, profitFactor := PFValue.posInf,
    avgWin := 0, avgLoss := 0, equitySeries := [], symbolSeries := [],
    tradeTable := [] }

/-- Classification step (src/app.py lines 77-80): both subsets are built
with .copy(), so they are values independent of the raw data. -/
def stepClassify (s : Dashboard) : Dashboard :=
  { s with tradeData := trade_data s.rawData,
           balanceData := balance_data s.rawData }

/-- Metrics step (src/app.py lines 86-106). -/
def stepMetrics (s : Dashboard) : Dashboard :=
  { s with netProfit := net_profit s.tradeData,
           totalTrades := total_trades s.tradeData,
           winRate := win_rate s.tradeData,
           profitFactor := profit_factor s.tradeData,
           avgWin := avg_win s.tradeData,
           avgLoss := avg_loss s.tradeData }

/-- Equity-curve step (src/app.py lines 120-130): the chart consumes the
(time, cumulative profit) pairs of the trade entries. -/
def stepEquity (s : Dashboard) : Dashboard :=
  { s with equitySeries :=
      (s.tradeData.map (fun d => d.time)).zip (cumulative_profit s.tradeData) }

/-- Per-symbol chart step (src/app.py lines 132-145). -/
def stepSymbol (s : Dashboard) : Dashboard :=
  { s with symbolSeries := profit_by_symbol (closing_deals s.tradeData) }

/-- Display relabeling step (src/app.py line 148): builds the displayed
rows with the inverted direction labels from the trade subset. -/
def stepRelabel (s : Dashboard) : Dashboard :=
  { s with tradeTable := s.tradeData.map toRow }

/-- Display zero-profit filter step (src/app.py line 151): drops displayed
rows whose profit is zero. -/
def stepZeroFilter (s : Dashboard) : Dashboard :=
  { s with tradeTable := s.tradeTable.filter (fun r => decide (r.profit ≠ 0)) }

/-- Dashboard state after classification, metrics and both chart series
(src/app.py lines 75-145), before the display-only transformations. -/
def analyzed (raw : List Deal) : Dashboard :=
  stepSymbol (stepEquity (stepMetrics (stepClassify (initDash raw))))

/-- Dashboard state at the end of the run, after the display-only
relabeling and zero-profit filter (src/app.py lines 147-161). -/
def displayed (raw : List Deal) : Dashboard :=
  stepZeroFilter (stepRelabel (analyzed raw))

/-- Concrete closing buy deal with profit 100, used as a witness input. -/
def dealBuyOut : Deal :=
  { time := 10, ticket := 1, symbol := "EURUSD", type := DEAL_TYPE_BUY,
    entry := DEAL_ENTRY_OUT, volume := 1, price := 1, profit := 100, comment := "" }

/-- Concrete closing sell deal with profit -40, used as a witness input. -/
def dealSellOut : Deal :=
  { time := 20, ticket := 2, symbol := "GBPUSD", type := DEAL_TYPE_SELL,
    entry := DEAL_ENTRY_OUT, volume := 1, price := 1, profit := -40, comment := "" }

/-- Concrete opening buy deal with profit 5, used as a witness input. -/
def dealBuyIn : Deal :=
  { time := 5, ticket := 3, symbol := "EURUSD", type := DEAL_TYPE_BUY,
    entry := DEAL_ENTRY_IN, volume := 1, price := 1, profit := 5, comment := "" }

/-- Concrete balance deposit entry, used as a witness input. -/
def dealBalance : Deal :=
  { time := 1, ticket := 4, symbol := "", type := DEAL_TYPE_BALANCE,
    entry := DEAL_ENTRY_IN, volume := 0, price := 0, profit := 500, comment := "" }

/-- Concrete entry of an unrecognized type code, used as a witness input. -/
def dealCredit : Deal :=
  { time := 2, ticket := 5, symbol := "", type := 3,
    entry := DEAL_ENTRY_IN, volume := 0, price := 0, profit := 7, comment := "" }

/-- Trade list holding one winning and one losing closing deal. -/
def tdWinLoss : List Deal := [dealBuyOut, dealSellOut]

/-- Trade list holding one opening deal and no closing deal. -/
def tdNoClose : List Deal := [dealBuyIn]

/-- Raw entry list mixing trades, a balance entry and an unrecognized type. -/
def rawMix : List Deal := [dealBuyIn, dealBuyOut, dealSellOut, dealBalance, dealCredit]

end MT5Dashboard

namespace MT5Dashboard

theorem cumsum_getLast (l : List ℚ) :
    ∀ acc : ℚ, l ≠ [] → (cumsum acc l).getLast? = some (acc + l.sum) := by
  induction l with
  | nil => intro acc h; exact absurd rfl h
  | cons x xs ih =>
    intro acc _
    cases xs with
    | nil => simp [cumsum]
    | cons y ys =>
      have h2 : (y :: ys) ≠ [] := by simp
      have step : (cumsum acc (x :: y :: ys)).getLast?
          = (cumsum (acc + x) (y :: ys)).getLast? := by
        simp [cumsum, List.getLast?_cons_cons]
      rw [step, ih (acc + x) h2]
      simp [List.sum_cons]
      ring

theorem sum_pos_of_all_pos (l : List ℚ) (h : ∀ x ∈ l, 0 < x) (hne : l ≠ []) :
    0 < l.sum := by
  induction l with
  | nil => exact absurd rfl hne
  | cons x xs ih =>
    rcases eq_or_ne xs [] with h0 | h0
    · subst h0; simpa using h x (by simp)
    · have hx := h x (by simp)
      have hs := ih (fun y hy => h y (by simp [hy])) h0
      simp only [List.sum_cons]
      exact add_pos hx hs

theorem sum_neg_of_all_neg (l : List ℚ) (h : ∀ x ∈ l, x < 0) (hne : l ≠ []) :
    l.sum < 0 := by
  induction l with
  | nil => exact absurd rfl hne
  | cons x xs ih =>
    rcases eq_or_ne xs [] with h0 | h0
    · subst h0; simpa using h x (by simp)
    · have hx := h x (by simp)
      have hs := ih (fun y hy => h y (by simp [hy])) h0
      simp only [List.sum_cons]
      exact add_neg hx hs

theorem mem_wins_profit_pos (td : List Deal) (d : Deal) (h : d ∈ wins td) :
    0 < d.profit := by
  have := (List.mem_filter.mp h).2
  simpa using this

theorem mem_losses_profit_neg (td : List Deal) (d : Deal) (h : d ∈ losses td) :
    d.profit < 0 := by
  have := (List.mem_filter.mp h).2
  simpa using this

theorem total_profit_pos (td : List Deal) (h : wins td ≠ []) :
    0 < total_profit td := by
  apply sum_pos_of_all_pos
  · intro x hx
    rw [List.mem_map] at hx
    obtain ⟨d, hd, rfl⟩ := hx
    exact mem_wins_profit_pos td d hd
  · simpa using h

/-- Claim C1 counterexample: the claim says that equal selected start and
end dates are rejected as a validation error and that the core pipeline
runs only when start is strictly before end. On the code this is false:
with equal day ordinals the widened datetimes satisfy start < end, the
validation check passes, and the pipeline runs (src/app.py lines 57-71). -/
theorem c1_counterexample :
    dateValidationRejects 20000 20000 = false
    ∧ corePipelineRuns 20000 20000 = true := by
  constructor <;> decide

/-- Claim C1 amended: the request is rejected as a validation error exactly
when the selected start date is strictly after the selected end date, and
the core pipeline (connect, fetch, classify, analyze) runs exactly when the
start date is less than or equal to the end date; in particular equal dates
pass validation and the pipeline runs. -/
theorem c1_validation_amended (s e : Nat) :
    (dateValidationRejects s e = true ↔ e < s)
    ∧ (corePipelineRuns s e = true ↔ s ≤ e) := by
  simp only [dateValidationRejects, corePipelineRuns, startDatetime, endDatetime,
    MICROS_PER_DAY, Bool.not_eq_true', decide_eq_true_eq, decide_eq_false_iff_not]
  omega

/-- Claim C9: the selected calendar dates are widened to whole days, the
start datetime being midnight of the start date and the end datetime being
23:59:59.999999 of the end date, so equal selected dates give a strictly
increasing datetime pair and pass the start >= end rejection check
(src/app.py lines 56-66). -/
theorem c9_widened_range (s e : Nat) :
    startDatetime s / MICROS_PER_DAY = s
    ∧ startDatetime s % MICROS_PER_DAY = 0
    ∧ endDatetime e / MICROS_PER_DAY = e
    ∧ endDatetime e % MICROS_PER_DAY = MICROS_PER_DAY - 1
    ∧ (s = e → startDatetime s < endDatetime e ∧ dateValidationRejects s e = false) := by
  simp only [dateValidationRejects, startDatetime, endDatetime, MICROS_PER_DAY,
    decide_eq_false_iff_not]
  omega

/-- Claim C9 witness: the widening theorem applied to the concrete day
ordinal 20000 for both selected dates. -/
theorem c9_witness :
    startDatetime 20000 < endDatetime 20000
    ∧ dateValidationRejects 20000 20000 = false :=
  (c9_widened_range 20000 20000).2.2.2.2 rfl

/-- Claim C3 counterexample: the claim says the broker connection is
released unconditionally, even if the fetch raises an error. On the code
this is false: src/app.py lines 68-71 run connect, fetch and shutdown in
straight line with no try or finally, so when the fetch raises, the run
ends in the raised state with the connection still open. -/
theorem c3_counterexample :
    (analysisFetch true FetchOutcome.raised
      { connected := false, fetchCalls := 0 }).1.connected = true
    ∧ (analysisFetch true FetchOutcome.raised
      { connected := false, fetchCalls := 0 }).2 = RunResult.fetchRaised :=
  ⟨rfl, rfl⟩

/-- Claim C3 amended: for every analysis request with a successful terminal
initialization, exactly one fetch is executed, and the connection is
released exactly when the fetch returns normally; when the fetch raises,
the connection remains open. When initialization fails, execution halts
with no fetch. -/
theorem c3_fetch_release_amended (outcome : FetchOutcome) (s0 : ConnState) :
    (analysisFetch true outcome s0).1.fetchCalls = s0.fetchCalls + 1
    ∧ (analysisFetch true outcome s0).1.connected = outcome.isRaised
    ∧ analysisFetch false outcome s0 = (s0, RunResult.initFailed) := by
  cases outcome <;> simp [analysisFetch, FetchOutcome.isRaised]

theorem total_loss_pos_iff (td : List Deal) :
    0 < total_loss td ↔ losses td ≠ [] := by
  constructor
  · intro hpos hl
    rw [total_loss, hl] at hpos
    simp at hpos
  · intro hl
    have hsum : (((losses td).map (fun d => d.profit)).sum) < 0 := by
      apply sum_neg_of_all_neg
      · intro x hx
        rw [List.mem_map] at hx
        obtain ⟨d, hd, rfl⟩ := hx
        exact mem_losses_profit_neg td d hd
      · simpa using hl
    rw [total_loss]
    exact abs_pos.mpr (ne_of_lt hsum)

/-- Claim C2 counterexample: the claim says profit_factor is positive
infinity iff there is at least one winning closing entry and no losing
closing entry. On the code this is false: a trade list holding a single
opening deal has no closing entries at all, hence no wins, yet its loss
sum is zero and profit_factor is positive infinity (src/app.py line 103). -/
theorem c2_counterexample :
    profit_factor tdNoClose = PFValue.posInf
    ∧ wins tdNoClose = []
    ∧ losses tdNoClose = [] := by
  refine ⟨?_, by decide, by decide⟩
  have h : losses tdNoClose = [] := by decide
  simp [profit_factor, total_loss, h]

/-- Claim C2 amended: profit_factor is positive infinity exactly when there
are no losing closing entries, whether or not winning entries exist; when at
least one losing closing entry exists it equals the winning profit sum
divided by the absolute losing profit sum, and that value is 0 exactly when
there are no winning entries. -/
theorem c2_profit_factor_amended (td : List Deal) :
    (profit_factor td = PFValue.posInf ↔ losses td = [])
    ∧ (losses td ≠ [] →
        profit_factor td = PFValue.val (total_profit td / total_loss td))
    ∧ (profit_factor td = PFValue.val 0 ↔ (wins td = [] ∧ losses td ≠ [])) := by
  rcases eq_or_ne (losses td) [] with hl | hl
  · have hz : total_loss td = 0 := by simp [total_loss, hl]
    have hpf : profit_factor td = PFValue.posInf := by simp [profit_factor, hz]
    exact ⟨by simp [hpf, hl], fun h => absurd hl h, by simp [hpf, hl]⟩
  · have hpos : 0 < total_loss td := (total_loss_pos_iff td).2 hl
    have hpf : profit_factor td = PFValue.val (total_profit td / total_loss td) := by
      simp [profit_factor, hpos]
    refine ⟨by simp [hpf, hl], fun _ => hpf, ?_⟩
    rw [hpf]
    have htl : total_loss td ≠ 0 := ne_of_gt hpos
    simp only [PFValue.val.injEq, div_eq_zero_iff]
    constructor
    · rintro (h0 | h0)
      · refine ⟨?_, hl⟩
        by_contra hw
        exact absurd h0 (ne_of_gt (total_profit_pos td hw))
      · exact absurd h0 htl
    · rintro ⟨hw, _⟩
      exact Or.inl (by simp [total_profit, hw])

/-- Claim C2 witness: the amended profit-factor theorem applied to a
concrete trade list with one winning and one losing closing deal. -/
theorem c2_witness :
    losses tdWinLoss ≠ []
    ∧ profit_factor tdWinLoss
      = PFValue.val (total_profit tdWinLoss / total_loss tdWinLoss) :=
  ⟨by decide, (c2_profit_factor_amended tdWinLoss).2.1 (by decide)⟩

/-- Claim C5: classification splits the raw entries into a trade subset
(type Buy or Sell) and a balance subset (type Balance) that are disjoint;
their union is a subset of the input; entries of any other type are
silently dropped from both; and re-running the trade filter on its own
output changes nothing (src/app.py lines 77-80). -/
theorem c5_classify (raw : List Deal) (d : Deal) :
    (d ∈ trade_data raw → d ∉ balance_data raw)
    ∧ ((d ∈ trade_data raw ∨ d ∈ balance_data raw) → d ∈ raw)
    ∧ (d ∈ raw → d.type ≠ DEAL_TYPE_BUY → d.type ≠ DEAL_TYPE_SELL →
        d.type ≠ DEAL_TYPE_BALANCE →
        d ∉ trade_data raw ∧ d ∉ balance_data raw)
    ∧ trade_data (trade_data raw) = trade_data raw := by
  refine ⟨?_, ?_, ?_, ?_⟩
  · intro ht hb
    have ht2 := (List.mem_filter.mp ht).2
    have hb2 := (List.mem_filter.mp hb).2
    simp [DEAL_TYPE_BUY, DEAL_TYPE_SELL] at ht2
    simp [DEAL_TYPE_BALANCE] at hb2
    omega
  · rintro (ht | hb)
    · exact (List.mem_filter.mp ht).1
    · exact (List.mem_filter.mp hb).1
  · intro _ h0 h1 h2
    constructor
    · intro ht
      have ht2 := (List.mem_filter.mp ht).2
      simp [DEAL_TYPE_BUY, DEAL_TYPE_SELL] at ht2
      rcases ht2 with h | h
      · exact h0 h
      · exact h1 h
    · intro hb
      have hb2 := (List.mem_filter.mp hb).2
      simp [DEAL_TYPE_BALANCE] at hb2
      exact h2 hb2
  · apply List.filter_eq_self.mpr
    intro a ha
    exact (List.mem_filter.mp ha).2

/-- Claim C5 witness: the classification theorem applied to a concrete raw
list holding trades, a balance entry and an unrecognized type code. -/
theorem c5_witness :
    dealBuyOut ∉ balance_data rawMix
    ∧ dealBuyOut ∈ rawMix
    ∧ (dealCredit ∉ trade_data rawMix ∧ dealCredit ∉ balance_data rawMix)
    ∧ trade_data (trade_data rawMix) = trade_data rawMix :=
  ⟨(c5_classify rawMix dealBuyOut).1 (by decide),
   (c5_classify rawMix dealBuyOut).2.1 (Or.inl (by decide)),
   (c5_classify rawMix dealCredit).2.2.1 (by decide) (by decide) (by decide) (by decide),
   (c5_classify rawMix dealBuyOut).2.2.2⟩

/-- Claim C6: for every non-empty trade-entry list, the last value of the
cumulative-profit series equals net_profit, the sum of profit over all
trade entries, opening and closing legs alike (src/app.py lines 86, 121). -/
theorem c6_last_cumulative (td : List Deal) (h : td ≠ []) :
    (cumulative_profit td).getLast? = some (net_profit td)
    ∧ net_profit td = (td.map (fun d => d.profit)).sum := by
  have hm : td.map (fun d => d.profit) ≠ [] := by simpa using h
  refine ⟨?_, rfl⟩
  rw [cumulative_profit, cumsum_getLast _ _ hm]
  simp [net_profit]

/-- Claim C6 witness: the last-cumulative theorem applied to a concrete
trade list with profits 100 and -40. -/
theorem c6_witness :
    (cumulative_profit tdWinLoss).getLast? = some (net_profit tdWinLoss) :=
  (c6_last_cumulative tdWinLoss (by decide)).1

/-- Claim C7: the display-only relabeling and the display-only zero-profit
filter are applied to a copy of the trade subset: for every input, the raw
fetched entries, the balance subset, every aggregate computed earlier and
both chart series are unchanged by the two transformations, and the
displayed table is exactly the relabeled, zero-filtered copy of the trade
subset (src/app.py lines 77-80 and 147-151). -/
theorem c7_display_frame (raw : List Deal) :
    (displayed raw).rawData = raw
    ∧ (displayed raw).rawData = (analyzed raw).rawData
    ∧ (displayed raw).balanceData = (analyzed raw).balanceData
    ∧ (displayed raw).netProfit = (analyzed raw).netProfit
    ∧ (displayed raw).totalTrades = (analyzed raw).totalTrades
    ∧ (displayed raw).winRate = (analyzed raw).winRate
    ∧ (displayed raw).profitFactor = (analyzed raw).profitFactor
    ∧ (displayed raw).avgWin = (analyzed raw).avgWin
    ∧ (displayed raw).avgLoss = (analyzed raw).avgLoss
    ∧ (displayed raw).equitySeries = (analyzed raw).equitySeries
    ∧ (displayed raw).symbolSeries = (analyzed raw).symbolSeries
    ∧ (displayed raw).tradeTable
      = ((trade_data raw).map toRow).filter (fun r => decide (r.profit ≠ 0)) :=
  ⟨rfl, rfl, rfl, rfl, rfl, rfl, rfl, rfl, rfl, rfl, rfl, rfl⟩

/-- Claim C8: every row of the displayed trade table stems from a trade
entry, and the direction labels are inverted relative to the stored type:
a deal of type Buy is shown with the label Sell and a deal of type Sell is
shown with the label Buy (src/app.py line 148). -/
theorem c8_direction_inverted (raw : List Deal) (r : TableRow)
    (h : r ∈ (displayed raw).tradeTable) :
    ∃ d, d ∈ trade_data raw ∧ r = toRow d
      ∧ (d.type = DEAL_TYPE_BUY → r.typeLabel = "Sell")
      ∧ (d.type = DEAL_TYPE_SELL → r.typeLabel = "Buy") := by
  have hshape : (displayed raw).tradeTable
      = ((trade_data raw).map toRow).filter (fun r => decide (r.profit ≠ 0)) := rfl
  rw [hshape] at h
  have h1 : r ∈ (trade_data raw).map toRow := (List.mem_filter.mp h).1
  obtain ⟨d, hd, rfl⟩ := List.mem_map.mp h1
  refine ⟨d, hd, rfl, ?_, ?_⟩
  · intro ht
    simp [toRow, relabelType, ht, DEAL_TYPE_BUY, DEAL_TYPE_SELL]
  · intro ht
    simp [toRow, relabelType, ht, DEAL_TYPE_BUY, DEAL_TYPE_SELL]

/-- Claim C8 witness: the inversion theorem applied to the concrete table
row produced by a closing buy deal inside a mixed raw list. -/
theorem c8_witness :
    ∃ d, d ∈ trade_data rawMix ∧ toRow dealBuyOut = toRow d
      ∧ (d.type = DEAL_TYPE_BUY → (toRow dealBuyOut).typeLabel = "Sell")
      ∧ (d.type = DEAL_TYPE_SELL → (toRow dealBuyOut).typeLabel = "Buy") :=
  c8_direction_inverted rawMix (toRow dealBuyOut) (by decide)

/-- Claim C10 counterexample: the claim says the no-trades informational
state is shown iff the Buy/Sell trade subset is empty. On the code this
is false at the empty raw list: the trade subset is empty, yet the
no-activity state is shown instead of the no-trades state (src/app.py
lines 73-83). -/
theorem c10_counterexample :
    (trade_data ([] : List Deal)).isEmpty = true
    ∧ renderBanner ([] : List Deal) = Banner.noActivity
    ∧ renderBanner ([] : List Deal) ≠ Banner.noTrades := by
  exact ⟨rfl, rfl, by decide⟩

/-- Claim C10 amended: the no-trades informational state is shown exactly
when the fetch returned a non-empty entry set whose Buy/Sell trade subset
is empty; when the trade subset is non-empty the report renders, and when
no trade entry has the Out role the analyzer still produces
total_trades = 0, win_rate = 0, profit_factor positive infinity,
avg_win = avg_loss = 0 and an empty per-symbol series (src/app.py
lines 73-106 and 132-133). -/
theorem c10_no_trades_amended (raw : List Deal) :
    (renderBanner raw = Banner.noTrades
      ↔ (raw.isEmpty = false ∧ (trade_data raw).isEmpty = true))
    ∧ ((trade_data raw).isEmpty = false → raw.isEmpty = false →
        renderBanner raw = Banner.report)
    ∧ (closing_deals (trade_data raw) = [] →
        total_trades (trade_data raw) = 0
        ∧ win_rate (trade_data raw) = 0
        ∧ profit_factor (trade_data raw) = PFValue.posInf
        ∧ avg_win (trade_data raw) = 0
        ∧ avg_loss (trade_data raw) = 0
        ∧ profit_by_symbol (closing_deals (trade_data raw)) = []) := by
  refine ⟨?_, ?_, ?_⟩
  · rcases h1 : raw.isEmpty with _ | _
    · rcases h2 : (trade_data raw).isEmpty with _ | _
      · simp [renderBanner, h1, h2]
      · simp [renderBanner, h1, h2]
    · simp [renderBanner, h1]
  · intro h2 h1
    simp [renderBanner, h1, h2]
  · intro hc
    have hw : wins (trade_data raw) = [] := by simp [wins, hc]
    have hl : losses (trade_data raw) = [] := by simp [losses, hc]
    refine ⟨by simp [total_trades, hc], ?_, ?_, ?_, ?_, ?_⟩
    · simp [win_rate, total_trades, hc]
    · simp [profit_factor, total_loss, hl]
    · simp [avg_win, hw]
    · simp [avg_loss, hl]
    · rw [hc]
      rfl

/-- Claim C10 witness: the amended theorem applied to a concrete raw list
whose only entry is an opening buy deal, so trades exist but none closes. -/
theorem c10_witness :
    total_trades (trade_data tdNoClose) = 0
    ∧ win_rate (trade_data tdNoClose) = 0
    ∧ profit_factor (trade_data tdNoClose) = PFValue.posInf
    ∧ avg_win (trade_data tdNoClose) = 0
    ∧ avg_loss (trade_data tdNoClose) = 0
    ∧ profit_by_symbol (closing_deals (trade_data tdNoClose)) = [] :=
  (c10_no_trades_amended tdNoClose).2.2 (by decide)

end MT5Dashboard
